import Mathlib

/-!
# OCSP staple check of `nats-ocsp-resp`

A shallow embedding of `getOCSPStatus` and of the `VerifyConnection` callback that
`main` installs in the TLS configuration (`src/main.go`).

* Go's `(*ocsp.Response, error)` result is a pair of options (`none` is `nil`).
* The two library calls (`ocsp.ParseResponseForCert`, `Response.CheckSignatureFrom`)
  belong to `golang.org/x/crypto/ocsp`; they are parameters of the model.
* Every library call and every `log.Println` / `log.Printf` is recorded, in program
  order, in a trace, so that "the parser is not invoked" and "the diagnostics
  contain ..." are statements about the trace.
* A slice index that is out of range is a run-time panic; the model keeps that
  outcome explicit instead of assuming the index is valid.
-/

namespace OcspCheck

/-! ## Data model -/

/-- Go `time.Time`, as a point on an integer time axis. -/
abbrev Time := Int

/-- Fields of `x509.Certificate` that the program or the library calls look at. -/
structure Certificate where
  SerialNumber : Nat
  PublicKey : List Nat
  SignatureAlgorithm : Nat
deriving DecidableEq, Repr

/-- Fields of `ocsp.Response`. `Status` is a Go `int`. -/
structure Response where
  Status : Int
  SerialNumber : Nat
  ProducedAt : Time
  ThisUpdate : Time
  NextUpdate : Time
  RevokedAt : Time
  SignatureAlgorithm : Nat
  Signature : List Nat
deriving DecidableEq, Repr

/-- Fields of `tls.ConnectionState` read by `getOCSPStatus` and the callback. -/
structure ConnectionState where
  VerifiedChains : List (List Certificate)
  OCSPResponse : List Nat
deriving DecidableEq, Repr

/-- Constant `ocsp.Good` of `golang.org/x/crypto/ocsp` (`iota` = 0). -/
def ocsp.Good : Int := 0

/-- Constant `ocsp.Revoked` of `golang.org/x/crypto/ocsp` (1). -/
def ocsp.Revoked : Int := 1

/-- Constant `ocsp.Unknown` of `golang.org/x/crypto/ocsp` (2). -/
def ocsp.Unknown : Int := 2

/-- The two calls into `golang.org/x/crypto/ocsp`. `ParseResponseForCert` yields either
a response or an error; `CheckSignatureFrom` yields `none` (Go `nil`) on success and
the error text otherwise. -/
structure Library where
  ParseResponseForCert : List Nat → Certificate → Certificate → Except String Response
  CheckSignatureFrom : Response → Certificate → Option String

/-- The error values the program builds with `fmt.Errorf`. -/
inductive Err where
  /-- Line 43: `"missing TLS verified chains"`. -/
  | missingChains
  /-- Line 48: `"incomplete cert chain, got %d, want at least %d"`. -/
  | incompleteChain (got want : Nat)
  /-- Line 54: `"failed to parse OCSP response: %w"` wrapping the parser's error. -/
  | parseFailure (err : String)
  /-- Line 57: `"bad OCSP signature: %v"` with the signature check's error. -/
  | badSignature (err : String)
  /-- Line 111: `"invalid staple status"`. -/
  | invalidStapleStatus
  /-- Line 114: `"invalid staple"`. -/
  | invalidStaple
deriving DecidableEq, Repr

/-- The text of an error value, as `fmt.Errorf` formats it. -/
def Err.Error : Err → String
  | .missingChains => "missing TLS verified chains"
  | .incompleteChain got want =>
      "incomplete cert chain, got " ++ toString got ++ ", want at least " ++ toString want
  | .parseFailure err => "failed to parse OCSP response: " ++ err
  | .badSignature err => "bad OCSP signature: " ++ err
  | .invalidStapleStatus => "invalid staple status"
  | .invalidStaple => "invalid staple"

/-- One call of the logger in the callback. -/
inductive LogLine where
  /-- A `log.Println` of a string literal. -/
  | text (s : String)
  /-- Line 107: `log.Println("RevokedAt : ", resp.RevokedAt)`. -/
  | revokedAt (t : Time)
  /-- Line 116: `log.Println("ProducedAt: ", resp.ProducedAt)`. -/
  | producedAt (t : Time)
  /-- Line 117: `log.Println("ThisUpdate: ", resp.ThisUpdate)`. -/
  | thisUpdate (t : Time)
  /-- Line 118: `log.Println("NextUpdate: ", resp.NextUpdate)`. -/
  | nextUpdate (t : Time)
  /-- Line 121: `log.Printf("Verified: %v", err == nil)`. -/
  | verified (b : Bool)
  /-- Line 124: `log.Println("OCSP Response     :", resp.SignatureAlgorithm)`. -/
  | ocspResponseAlg (a : Nat)
  /-- Line 128: `log.Printf("Leaf Certificate  : %+v", leaf.SignatureAlgorithm)`. -/
  | leafAlg (a : Nat)
  /-- Line 129: `log.Printf("Issuer Certificate: %+v", issuer.SignatureAlgorithm)`. -/
  | issuerAlg (a : Nat)
deriving DecidableEq, Repr

/-- Observable effects, in program order. -/
inductive Event where
  /-- Call `ocsp.ParseResponseForCert(staple, leaf, issuer)`. -/
  | parse (staple : List Nat) (leaf issuer : Certificate)
  /-- Call `resp.CheckSignatureFrom(issuer)`. -/
  | checkSignature (resp : Response) (issuer : Certificate)
  /-- Call of the logger. -/
  | log (l : LogLine)
deriving DecidableEq, Repr

/-- How a Go function call ends: it returns a value, or it panics. -/
inductive Outcome (α : Type) where
  | ret (v : α)
  | panic
deriving DecidableEq, Repr

/-- A finished run: the effects performed and how the run ended. -/
structure Run (α : Type) where
  trace : List Event
  out : Outcome α
deriving DecidableEq, Repr

/-! ## The program -/

/-- Function `getOCSPStatus` (lines 41-60). -/
def getOCSPStatus (lib : Library) (s : ConnectionState) :
    Run (Option Response × Option Err) :=
  if s.VerifiedChains.length = 0 then
    ⟨[], .ret (none, some .missingChains)⟩
  else
    match s.VerifiedChains[0]? with
    | none => ⟨[], .panic⟩
    | some chain =>
      let got := chain.length
      let want := 2
      if got < want then
        ⟨[], .ret (none, some (.incompleteChain got want))⟩
      else
        match chain[0]?, chain[1]? with
        | some leaf, some issuer =>
          match lib.ParseResponseForCert s.OCSPResponse leaf issuer with
          | .error err =>
            ⟨[.parse s.OCSPResponse leaf issuer], .ret (none, some (.parseFailure err))⟩
          | .ok resp =>
            match lib.CheckSignatureFrom resp issuer with
            | some err =>
              ⟨[.parse s.OCSPResponse leaf issuer, .checkSignature resp issuer],
                .ret (some resp, some (.badSignature err))⟩
            | none =>
              ⟨[.parse s.OCSPResponse leaf issuer, .checkSignature resp issuer],
                .ret (some resp, none)⟩
        | _, _ => ⟨[], .panic⟩

/-- The `switch resp.Status` of lines 102-112: the lines logged by the matching case,
or `none` when the `default` case returns. -/
def statusSwitch (resp : Response) : Option (List Event) :=
  if resp.Status = ocsp.Good then
    some [.log (.text "Status: Good")]
  else if resp.Status = ocsp.Revoked then
    some [.log (.text "Status: Revoked"), .log (.revokedAt resp.RevokedAt)]
  else if resp.Status = ocsp.Unknown then
    some [.log (.text "Status: Unknown")]
  else
    none

/-- The callback `VerifyConnection` of the TLS configuration (lines 98-135).
The result is the returned `error` (`none` is `nil`). -/
def VerifyConnection (lib : Library) (s : ConnectionState) : Run (Option Err) :=
  match getOCSPStatus lib s with
  | ⟨tr, .panic⟩ => ⟨tr, .panic⟩
  | ⟨tr, .ret (none, err)⟩ => ⟨tr, .ret err⟩
  | ⟨tr, .ret (some resp, err)⟩ =>
    let tr := tr ++ [.log (.text "--- NATS OCSP Response ---")]
    match statusSwitch resp with
    | none => ⟨tr, .ret (some .invalidStapleStatus)⟩
    | some lines =>
      let tr := tr ++ lines
      if resp.Status ≠ ocsp.Good then
        ⟨tr, .ret (some .invalidStaple)⟩
      else
        let tr := tr ++
          [.log (.producedAt resp.ProducedAt),
           .log (.thisUpdate resp.ThisUpdate),
           .log (.nextUpdate resp.NextUpdate),
           .log (.text ""),
           .log (.text "--- OCSP Signature ---"),
           .log (.verified err.isNone),
           .log (.text ""),
           .log (.text "--- Signature Algorithms ---"),
           .log (.ocspResponseAlg resp.SignatureAlgorithm)]
        match s.VerifiedChains[0]? with
        | none => ⟨tr, .panic⟩
        | some chain =>
          match chain[0]?, chain[1]? with
          | some leaf, some issuer =>
            ⟨tr ++ [.log (.leafAlg leaf.SignatureAlgorithm),
                    .log (.issuerAlg issuer.SignatureAlgorithm)], .ret err⟩
          | _, _ => ⟨tr, .panic⟩

/-! ## Observations on a run -/

/-- The logger calls of a trace, in order. -/
def logLines : List Event → List LogLine
  | [] => []
  | .log l :: es => l :: logLines es
  | _ :: es => logLines es

/-- Whether the trace has a call of `ocsp.ParseResponseForCert`. -/
def parserInvoked : List Event → Bool
  | [] => false
  | .parse _ _ _ :: _ => true
  | _ :: es => parserInvoked es

/-- Whether the trace has a call of `CheckSignatureFrom`. -/
def signatureChecked : List Event → Bool
  | [] => false
  | .checkSignature _ _ :: _ => true
  | _ :: es => signatureChecked es

/-- The callback accepted the connection: it returned `nil`. -/
def accepts (r : Run (Option Err)) : Bool :=
  match r.out with
  | .ret none => true
  | _ => false

/-- The callback rejected the connection: it returned a non-nil error. -/
def rejects (r : Run (Option Err)) : Bool :=
  match r.out with
  | .ret (some _) => true
  | _ => false

/-! ## A small stand-in for the library, for concrete runs

The staple is read as eight numbers
`[status, serial, revokedAt, producedAt, thisUpdate, nextUpdate, algorithm, signer]`;
it is for the leaf when `serial` is the leaf's serial number, and its signature
verifies when `signer` is the issuer's public key. -/

/-- Stand-in for `golang.org/x/crypto/ocsp` used in the concrete runs. -/
def demoLib : Library where
  ParseResponseForCert := fun staple leaf _issuer =>
    match staple with
    | [status, serial, revokedAt, producedAt, thisUpdate, nextUpdate, alg, signer] =>
      if serial = leaf.SerialNumber then
        .ok { Status := status, SerialNumber := serial, ProducedAt := producedAt,
              ThisUpdate := thisUpdate, NextUpdate := nextUpdate, RevokedAt := revokedAt,
              SignatureAlgorithm := alg, Signature := [signer] }
      else
        .error "ocsp: response is for another certificate"
    | _ => .error "ocsp: malformed response"
  CheckSignatureFrom := fun resp issuer =>
    if resp.Signature = issuer.PublicKey then none
    else some "ocsp: signature verification failed"

/-- Leaf certificate of the concrete runs. -/
def leafA : Certificate := ⟨1001, [7], 4⟩

/-- Issuer certificate of the concrete runs. -/
def issuerA : Certificate := ⟨1, [42], 5⟩

/-- A staple for `leafA` signed by `issuerA`, with the given status and times. -/
def stapleA (status revokedAt nextUpdate : Nat) : List Nat :=
  [status, 1001, revokedAt, 100, 110, nextUpdate, 4, 42]

/-- A staple for `leafA` signed by a key that is not the one of `issuerA`. -/
def stapleForged (status revokedAt : Nat) : List Nat :=
  [status, 1001, revokedAt, 100, 110, 200, 4, 13]

/-! ## What the stages of a run look like from the inputs -/

/-- The facts about the inputs that decide the verdict: whether there is a
verified chain, whether the first one has two certificates, whether the parser
accepted the staple for `chain[0]`, `chain[1]`, and then the parsed status and
whether `CheckSignatureFrom(chain[1])` succeeded. No time field occurs in it. -/
inductive Stages where
  | noChains
  | shortChain
  | notParsed
  | parsed (status : Int) (verified : Bool)
deriving DecidableEq, Repr

/-- The stages reached on the inputs `lib`, `s`. -/
def stages (lib : Library) (s : ConnectionState) : Stages :=
  match s.VerifiedChains with
  | [] => .noChains
  | (leaf :: issuer :: _) :: _ =>
    match lib.ParseResponseForCert s.OCSPResponse leaf issuer with
    | .error _ => .notParsed
    | .ok resp => .parsed resp.Status (lib.CheckSignatureFrom resp issuer).isNone
  | _ :: _ => .shortChain

/-- The conditions under which the connection is to be accepted: a verified chain with
at least two certificates, a staple that parses for `chain[0]`, `chain[1]`, status
`Good`, and a signature that verifies against `chain[1]`. -/
def AcceptCondition (lib : Library) (s : ConnectionState) : Prop :=
  ∃ chain leaf issuer resp,
    s.VerifiedChains.head? = some chain ∧ 2 ≤ chain.length ∧
    chain[0]? = some leaf ∧ chain[1]? = some issuer ∧
    lib.ParseResponseForCert s.OCSPResponse leaf issuer = .ok resp ∧
    resp.Status = ocsp.Good ∧
    lib.CheckSignatureFrom resp issuer = none

/-- The full diagnostic block the callback logs for a response with status `Good`. -/
def goodBlock (resp : Response) (verified : Bool) (leaf issuer : Certificate) :
    List LogLine :=
  [.text "--- NATS OCSP Response ---",
   .text "Status: Good",
   .producedAt resp.ProducedAt,
   .thisUpdate resp.ThisUpdate,
   .nextUpdate resp.NextUpdate,
   .text "",
   .text "--- OCSP Signature ---",
   .verified verified,
   .text "",
   .text "--- Signature Algorithms ---",
   .ocspResponseAlg resp.SignatureAlgorithm,
   .leafAlg leaf.SignatureAlgorithm,
   .issuerAlg issuer.SignatureAlgorithm]

/-- The verdict read off the stages: accept exactly for a parsed response with
status `Good` whose signature verified. -/
def stagesAccept : Stages → Bool
  | .parsed status verified => decide (status = ocsp.Good) && verified
  | _ => false

/-- The error `getOCSPStatus` returns next to a parsed response. -/
def signatureErr (lib : Library) (resp : Response) (issuer : Certificate) : Option Err :=
  match lib.CheckSignatureFrom resp issuer with
  | some err => some (.badSignature err)
  | none => none

/-! ## Run of `getOCSPStatus`, case by case -/

theorem chain_of_index {chain : List Certificate} {leaf issuer : Certificate}
    (hl : chain[0]? = some leaf) (hi : chain[1]? = some issuer) :
    ∃ tail, chain = leaf :: issuer :: tail := by
  match chain, hl, hi with
  | a :: b :: t, hl, hi =>
    simp at hl hi
    exact ⟨t, by rw [hl, hi]⟩

theorem getOCSPStatus_no_chains (lib : Library) (s : ConnectionState)
    (hs : s.VerifiedChains = []) :
    getOCSPStatus lib s = ⟨[], .ret (none, some .missingChains)⟩ := by
  simp [getOCSPStatus, hs]

theorem getOCSPStatus_short_chain (lib : Library) (s : ConnectionState)
    (chain : List Certificate) (rest : List (List Certificate))
    (hs : s.VerifiedChains = chain :: rest) (hn : chain.length < 2) :
    getOCSPStatus lib s = ⟨[], .ret (none, some (.incompleteChain chain.length 2))⟩ := by
  simp [getOCSPStatus, hs, hn]

theorem getOCSPStatus_parse_error (lib : Library) (s : ConnectionState)
    (leaf issuer : Certificate) (tail : List Certificate) (rest : List (List Certificate))
    (err : String)
    (hs : s.VerifiedChains = (leaf :: issuer :: tail) :: rest)
    (hp : lib.ParseResponseForCert s.OCSPResponse leaf issuer = .error err) :
    getOCSPStatus lib s =
      ⟨[.parse s.OCSPResponse leaf issuer], .ret (none, some (.parseFailure err))⟩ := by
  simp [getOCSPStatus, hs, hp]

theorem getOCSPStatus_bad_signature (lib : Library) (s : ConnectionState)
    (leaf issuer : Certificate) (tail : List Certificate) (rest : List (List Certificate))
    (resp : Response) (err : String)
    (hs : s.VerifiedChains = (leaf :: issuer :: tail) :: rest)
    (hp : lib.ParseResponseForCert s.OCSPResponse leaf issuer = .ok resp)
    (hc : lib.CheckSignatureFrom resp issuer = some err) :
    getOCSPStatus lib s =
      ⟨[.parse s.OCSPResponse leaf issuer, .checkSignature resp issuer],
        .ret (some resp, some (.badSignature err))⟩ := by
  simp [getOCSPStatus, hs, hp, hc]

theorem getOCSPStatus_verified (lib : Library) (s : ConnectionState)
    (leaf issuer : Certificate) (tail : List Certificate) (rest : List (List Certificate))
    (resp : Response)
    (hs : s.VerifiedChains = (leaf :: issuer :: tail) :: rest)
    (hp : lib.ParseResponseForCert s.OCSPResponse leaf issuer = .ok resp)
    (hc : lib.CheckSignatureFrom resp issuer = none) :
    getOCSPStatus lib s =
      ⟨[.parse s.OCSPResponse leaf issuer, .checkSignature resp issuer],
        .ret (some resp, none)⟩ := by
  simp [getOCSPStatus, hs, hp, hc]

theorem signatureErr_isNone (lib : Library) (resp : Response) (issuer : Certificate) :
    (signatureErr lib resp issuer).isNone = (lib.CheckSignatureFrom resp issuer).isNone := by
  unfold signatureErr
  cases lib.CheckSignatureFrom resp issuer <;> rfl

theorem getOCSPStatus_parsed (lib : Library) (s : ConnectionState)
    (leaf issuer : Certificate) (tail : List Certificate) (rest : List (List Certificate))
    (resp : Response)
    (hs : s.VerifiedChains = (leaf :: issuer :: tail) :: rest)
    (hp : lib.ParseResponseForCert s.OCSPResponse leaf issuer = .ok resp) :
    getOCSPStatus lib s =
      ⟨[.parse s.OCSPResponse leaf issuer, .checkSignature resp issuer],
        .ret (some resp, signatureErr lib resp issuer)⟩ := by
  unfold signatureErr
  cases hc : lib.CheckSignatureFrom resp issuer with
  | none => exact getOCSPStatus_verified lib s leaf issuer tail rest resp hs hp hc
  | some err => exact getOCSPStatus_bad_signature lib s leaf issuer tail rest resp err hs hp hc

/-! ## Run of the callback, case by case -/

theorem VerifyConnection_no_chains (lib : Library) (s : ConnectionState)
    (hs : s.VerifiedChains = []) :
    VerifyConnection lib s = ⟨[], .ret (some .missingChains)⟩ := by
  simp [VerifyConnection, getOCSPStatus_no_chains lib s hs]

theorem VerifyConnection_short_chain (lib : Library) (s : ConnectionState)
    (chain : List Certificate) (rest : List (List Certificate))
    (hs : s.VerifiedChains = chain :: rest) (hn : chain.length < 2) :
    VerifyConnection lib s = ⟨[], .ret (some (.incompleteChain chain.length 2))⟩ := by
  simp [VerifyConnection, getOCSPStatus_short_chain lib s chain rest hs hn]

theorem VerifyConnection_parse_error (lib : Library) (s : ConnectionState)
    (leaf issuer : Certificate) (tail : List Certificate) (rest : List (List Certificate))
    (err : String)
    (hs : s.VerifiedChains = (leaf :: issuer :: tail) :: rest)
    (hp : lib.ParseResponseForCert s.OCSPResponse leaf issuer = .error err) :
    VerifyConnection lib s =
      ⟨[.parse s.OCSPResponse leaf issuer], .ret (some (.parseFailure err))⟩ := by
  simp [VerifyConnection, getOCSPStatus_parse_error lib s leaf issuer tail rest err hs hp]

theorem VerifyConnection_good (lib : Library) (s : ConnectionState)
    (leaf issuer : Certificate) (tail : List Certificate) (rest : List (List Certificate))
    (resp : Response)
    (hs : s.VerifiedChains = (leaf :: issuer :: tail) :: rest)
    (hp : lib.ParseResponseForCert s.OCSPResponse leaf issuer = .ok resp)
    (hst : resp.Status = ocsp.Good) :
    VerifyConnection lib s =
      ⟨[.parse s.OCSPResponse leaf issuer, .checkSignature resp issuer] ++
          (goodBlock resp (lib.CheckSignatureFrom resp issuer).isNone leaf issuer).map .log,
        .ret (signatureErr lib resp issuer)⟩ := by
  simp [VerifyConnection, getOCSPStatus_parsed lib s leaf issuer tail rest resp hs hp,
    statusSwitch, hst, hs, goodBlock, signatureErr_isNone]

theorem VerifyConnection_revoked (lib : Library) (s : ConnectionState)
    (leaf issuer : Certificate) (tail : List Certificate) (rest : List (List Certificate))
    (resp : Response)
    (hs : s.VerifiedChains = (leaf :: issuer :: tail) :: rest)
    (hp : lib.ParseResponseForCert s.OCSPResponse leaf issuer = .ok resp)
    (hst : resp.Status = ocsp.Revoked) :
    VerifyConnection lib s =
      ⟨[.parse s.OCSPResponse leaf issuer, .checkSignature resp issuer,
         .log (.text "--- NATS OCSP Response ---"), .log (.text "Status: Revoked"),
         .log (.revokedAt resp.RevokedAt)],
        .ret (some .invalidStaple)⟩ := by
  simp [VerifyConnection, getOCSPStatus_parsed lib s leaf issuer tail rest resp hs hp,
    statusSwitch, hst, ocsp.Good, ocsp.Revoked]

theorem VerifyConnection_unknown (lib : Library) (s : ConnectionState)
    (leaf issuer : Certificate) (tail : List Certificate) (rest : List (List Certificate))
    (resp : Response)
    (hs : s.VerifiedChains = (leaf :: issuer :: tail) :: rest)
    (hp : lib.ParseResponseForCert s.OCSPResponse leaf issuer = .ok resp)
    (hst : resp.Status = ocsp.Unknown) :
    VerifyConnection lib s =
      ⟨[.parse s.OCSPResponse leaf issuer, .checkSignature resp issuer,
         .log (.text "--- NATS OCSP Response ---"), .log (.text "Status: Unknown")],
        .ret (some .invalidStaple)⟩ := by
  simp [VerifyConnection, getOCSPStatus_parsed lib s leaf issuer tail rest resp hs hp,
    statusSwitch, hst, ocsp.Good, ocsp.Revoked, ocsp.Unknown]

theorem VerifyConnection_other (lib : Library) (s : ConnectionState)
    (leaf issuer : Certificate) (tail : List Certificate) (rest : List (List Certificate))
    (resp : Response)
    (hs : s.VerifiedChains = (leaf :: issuer :: tail) :: rest)
    (hp : lib.ParseResponseForCert s.OCSPResponse leaf issuer = .ok resp)
    (hg : resp.Status ≠ ocsp.Good) (hr : resp.Status ≠ ocsp.Revoked)
    (hu : resp.Status ≠ ocsp.Unknown) :
    VerifyConnection lib s =
      ⟨[.parse s.OCSPResponse leaf issuer, .checkSignature resp issuer,
         .log (.text "--- NATS OCSP Response ---")],
        .ret (some .invalidStapleStatus)⟩ := by
  simp [VerifyConnection, getOCSPStatus_parsed lib s leaf issuer tail rest resp hs hp,
    statusSwitch, hg, hr, hu]

/-! ## The verdict as a function of the stages -/

theorem verdict_of_stages (lib : Library) (s : ConnectionState) :
    accepts (VerifyConnection lib s) = stagesAccept (stages lib s) ∧
    rejects (VerifyConnection lib s) = !stagesAccept (stages lib s) := by
  obtain ⟨chains, staple⟩ := s
  match chains with
  | [] =>
    rw [VerifyConnection_no_chains lib _ rfl]
    simp [accepts, rejects, stages, stagesAccept]
  | [] :: rest =>
    rw [VerifyConnection_short_chain lib _ [] rest rfl (by simp)]
    simp [accepts, rejects, stages, stagesAccept]
  | [a] :: rest =>
    rw [VerifyConnection_short_chain lib _ [a] rest rfl (by simp)]
    simp [accepts, rejects, stages, stagesAccept]
  | (leaf :: issuer :: tail) :: rest =>
    cases hp : lib.ParseResponseForCert staple leaf issuer with
    | error err =>
      rw [VerifyConnection_parse_error lib _ leaf issuer tail rest err rfl hp]
      simp [accepts, rejects, stages, stagesAccept, hp]
    | ok resp =>
      by_cases hg : resp.Status = ocsp.Good
      · rw [VerifyConnection_good lib _ leaf issuer tail rest resp rfl hp hg]
        cases hc : lib.CheckSignatureFrom resp issuer <;>
          simp [accepts, rejects, stages, stagesAccept, hp, hg, hc, signatureErr]
      · by_cases hr : resp.Status = ocsp.Revoked
        · rw [VerifyConnection_revoked lib _ leaf issuer tail rest resp rfl hp hr]
          simp [accepts, rejects, stages, stagesAccept, hp, hg]
        · by_cases hu : resp.Status = ocsp.Unknown
          · rw [VerifyConnection_unknown lib _ leaf issuer tail rest resp rfl hp hu]
            simp [accepts, rejects, stages, stagesAccept, hp, hg]
          · rw [VerifyConnection_other lib _ leaf issuer tail rest resp rfl hp hg hr hu]
            simp [accepts, rejects, stages, stagesAccept, hp, hg]

theorem acceptCondition_iff_stages (lib : Library) (s : ConnectionState) :
    AcceptCondition lib s ↔ stagesAccept (stages lib s) = true := by
  obtain ⟨chains, staple⟩ := s
  constructor
  · rintro ⟨chain, leaf, issuer, resp, hh, _, hl, hi, hp, hst, hc⟩
    obtain ⟨tail, rfl⟩ := chain_of_index hl hi
    match chains, hh with
    | c :: rest, hh =>
      simp at hh
      subst hh
      simp at hp
      simp [stages, stagesAccept, hp, hst, hc]
  · intro h
    match chains, h with
    | [], h => simp [stages, stagesAccept] at h
    | [] :: rest, h => simp [stages, stagesAccept] at h
    | [a] :: rest, h => simp [stages, stagesAccept] at h
    | (leaf :: issuer :: tail) :: rest, h =>
      cases hp : lib.ParseResponseForCert staple leaf issuer with
      | error err => simp [stages, stagesAccept, hp] at h
      | ok resp =>
        simp [stages, stagesAccept, hp] at h
        exact ⟨leaf :: issuer :: tail, leaf, issuer, resp, rfl, by simp, by simp, by simp, hp,
          h.1, h.2⟩

theorem accepts_iff_out (r : Run (Option Err)) : accepts r = true ↔ r.out = .ret none := by
  obtain ⟨tr, out⟩ := r
  match out with
  | .ret none => simp [accepts]
  | .ret (some e) => simp [accepts]
  | .panic => simp [accepts]

theorem rejects_iff_out (r : Run (Option Err)) :
    rejects r = true ↔ ∃ e, r.out = .ret (some e) := by
  obtain ⟨tr, out⟩ := r
  match out with
  | .ret none => simp [rejects]
  | .ret (some e) => simp [rejects]
  | .panic => simp [rejects]

theorem logLines_append (xs ys : List Event) :
    logLines (xs ++ ys) = logLines xs ++ logLines ys := by
  induction xs with
  | nil => rfl
  | cons x xs ih => cases x <;> simp [logLines, ih]

theorem logLines_map_log (ls : List LogLine) : logLines (ls.map .log) = ls := by
  induction ls with
  | nil => rfl
  | cons l ls ih => simp [logLines, ih]

/-! ## Properties of the validator -/

/-- C1: the callback returns `nil` if and only if there is a verified chain, the first
verified chain has at least two certificates, `ParseResponseForCert(staple, chain[0],
chain[1])` succeeded, the parsed status is `Good` and `CheckSignatureFrom(chain[1])`
succeeded; in every other case it returns a non-nil error. -/
theorem VerifyConnection_accept_iff (lib : Library) (s : ConnectionState) :
    ((VerifyConnection lib s).out = .ret none ↔ AcceptCondition lib s) ∧
    (¬ AcceptCondition lib s → ∃ e, (VerifyConnection lib s).out = .ret (some e)) := by
  have hv := verdict_of_stages lib s
  constructor
  · rw [← accepts_iff_out, hv.1, acceptCondition_iff_stages]
  · intro hn
    rw [← rejects_iff_out, hv.2]
    rw [acceptCondition_iff_stages] at hn
    simpa using hn

/-- Scenario A for C1: a `Good` staple for `leafA` signed by `issuerA` meets the
conditions and the callback returns `nil`; the same staple with a forged signature does
not and the callback returns an error. -/
theorem VerifyConnection_accept_iff_witness :
    AcceptCondition demoLib ⟨[[leafA, issuerA]], stapleA 0 0 200⟩ ∧
    (VerifyConnection demoLib ⟨[[leafA, issuerA]], stapleA 0 0 200⟩).out = .ret none ∧
    ¬ AcceptCondition demoLib ⟨[[leafA, issuerA]], stapleForged 0 0⟩ ∧
    ∃ e, (VerifyConnection demoLib ⟨[[leafA, issuerA]], stapleForged 0 0⟩).out
      = .ret (some e) := by
  have hno : ¬ AcceptCondition demoLib ⟨[[leafA, issuerA]], stapleForged 0 0⟩ := by
    rw [← (VerifyConnection_accept_iff demoLib _).1]
    decide
  have hyes : AcceptCondition demoLib ⟨[[leafA, issuerA]], stapleA 0 0 200⟩ :=
    ⟨[leafA, issuerA], leafA, issuerA, ⟨0, 1001, 100, 110, 200, 0, 4, [42]⟩,
      by decide, by decide, by decide, by decide, rfl, by decide, by decide⟩
  exact ⟨hyes, (VerifyConnection_accept_iff demoLib _).1.mpr hyes, hno,
    (VerifyConnection_accept_iff demoLib _).2 hno⟩

/-- C2: when the first verified chain has `n < 2` certificates, `getOCSPStatus` returns
no response and the error `incompleteChain n 2`, and neither it nor the callback
invokes the staple parser; a chain of length 1 gives `incompleteChain 1 2`. -/
theorem getOCSPStatus_incomplete_chain (lib : Library) (s : ConnectionState)
    (chain : List Certificate) (rest : List (List Certificate))
    (hs : s.VerifiedChains = chain :: rest) (hn : chain.length < 2) :
    (getOCSPStatus lib s).out = .ret (none, some (.incompleteChain chain.length 2)) ∧
    parserInvoked (getOCSPStatus lib s).trace = false ∧
    parserInvoked (VerifyConnection lib s).trace = false ∧
    (VerifyConnection lib s).out = .ret (some (.incompleteChain chain.length 2)) ∧
    (chain.length = 1 →
      (getOCSPStatus lib s).out = .ret (none, some (.incompleteChain 1 2))) := by
  rw [getOCSPStatus_short_chain lib s chain rest hs hn,
    VerifyConnection_short_chain lib s chain rest hs hn]
  refine ⟨rfl, rfl, rfl, rfl, ?_⟩
  intro h1
  rw [h1]

/-- Scenario C for C2: the chain `[leafA]` gives `incompleteChain 1 2` with no call of
the parser. -/
theorem getOCSPStatus_incomplete_chain_witness :
    (getOCSPStatus demoLib ⟨[[leafA]], stapleA 0 0 200⟩).out
      = .ret (none, some (.incompleteChain 1 2)) ∧
    parserInvoked (getOCSPStatus demoLib ⟨[[leafA]], stapleA 0 0 200⟩).trace = false ∧
    Err.Error (.incompleteChain 1 2) = "incomplete cert chain, got 1, want at least 2" :=
  have h := getOCSPStatus_incomplete_chain demoLib ⟨[[leafA]], stapleA 0 0 200⟩
    [leafA] [] rfl (by decide)
  ⟨h.1, h.2.1, by decide⟩

/-- C5: with a chain of at least two certificates whose staple the parser rejects for
`leaf = chain[0]`, `issuer = chain[1]`, `getOCSPStatus` returns no response and the
error `parseFailure` wrapping the parser's error, no signature check is made, and the
callback rejects with that error and logs nothing. -/
theorem getOCSPStatus_parse_failure (lib : Library) (s : ConnectionState)
    (chain : List Certificate) (rest : List (List Certificate))
    (leaf issuer : Certificate) (err : String)
    (hs : s.VerifiedChains = chain :: rest)
    (hl : chain[0]? = some leaf) (hi : chain[1]? = some issuer)
    (hp : lib.ParseResponseForCert s.OCSPResponse leaf issuer = .error err) :
    (getOCSPStatus lib s).out = .ret (none, some (.parseFailure err)) ∧
    signatureChecked (getOCSPStatus lib s).trace = false ∧
    (VerifyConnection lib s).out = .ret (some (.parseFailure err)) ∧
    signatureChecked (VerifyConnection lib s).trace = false ∧
    logLines (VerifyConnection lib s).trace = [] := by
  obtain ⟨tail, rfl⟩ := chain_of_index hl hi
  rw [getOCSPStatus_parse_error lib s leaf issuer tail rest err hs hp,
    VerifyConnection_parse_error lib s leaf issuer tail rest err hs hp]
  exact ⟨rfl, rfl, rfl, rfl, rfl⟩

/-- Scenario D for C5: a staple for another serial number, and the empty staple, are
parse failures without diagnostics. -/
theorem getOCSPStatus_parse_failure_witness :
    ((VerifyConnection demoLib ⟨[[leafA, issuerA]], [0, 2002, 0, 100, 110, 200, 4, 42]⟩).out
        = .ret (some (.parseFailure "ocsp: response is for another certificate")) ∧
      logLines
        (VerifyConnection demoLib ⟨[[leafA, issuerA]], [0, 2002, 0, 100, 110, 200, 4, 42]⟩).trace
        = []) ∧
    ((VerifyConnection demoLib ⟨[[leafA, issuerA]], []⟩).out
        = .ret (some (.parseFailure "ocsp: malformed response")) ∧
      logLines (VerifyConnection demoLib ⟨[[leafA, issuerA]], []⟩).trace = []) :=
  have h1 := getOCSPStatus_parse_failure demoLib
    ⟨[[leafA, issuerA]], [0, 2002, 0, 100, 110, 200, 4, 42]⟩ [leafA, issuerA] [] leafA issuerA
    "ocsp: response is for another certificate" rfl (by decide) (by decide) rfl
  have h2 := getOCSPStatus_parse_failure demoLib ⟨[[leafA, issuerA]], []⟩
    [leafA, issuerA] [] leafA issuerA "ocsp: malformed response" rfl (by decide) (by decide) rfl
  ⟨⟨h1.2.2.1, h1.2.2.2.2⟩, ⟨h2.2.2.1, h2.2.2.2.2⟩⟩

/-- C10: if `getOCSPStatus` returns a response, the state has a verified chain and its
first verified chain has at least two certificates, so `VerifiedChains[0]`, `chain[0]`
and `chain[1]` exist; neither `getOCSPStatus` nor the callback panics; and
`getOCSPStatus` never returns a nil response together with a nil error. -/
theorem getOCSPStatus_response_in_bounds (lib : Library) (s : ConnectionState) :
    (∀ resp err, (getOCSPStatus lib s).out = .ret (some resp, err) →
      1 ≤ s.VerifiedChains.length ∧
      ∃ chain leaf issuer, s.VerifiedChains[0]? = some chain ∧ 2 ≤ chain.length ∧
        chain[0]? = some leaf ∧ chain[1]? = some issuer) ∧
    (getOCSPStatus lib s).out ≠ .panic ∧
    (VerifyConnection lib s).out ≠ .panic ∧
    (getOCSPStatus lib s).out ≠ .ret (none, none) := by
  obtain ⟨chains, staple⟩ := s
  match chains with
  | [] =>
    rw [VerifyConnection_no_chains lib _ rfl, getOCSPStatus_no_chains lib _ rfl]
    simp
  | [] :: rest =>
    rw [VerifyConnection_short_chain lib _ [] rest rfl (by simp),
      getOCSPStatus_short_chain lib _ [] rest rfl (by simp)]
    simp
  | [a] :: rest =>
    rw [VerifyConnection_short_chain lib _ [a] rest rfl (by simp),
      getOCSPStatus_short_chain lib _ [a] rest rfl (by simp)]
    simp
  | (leaf :: issuer :: tail) :: rest =>
    have hidx : 1 ≤ ((leaf :: issuer :: tail) :: rest).length ∧
        ∃ chain l i, ((leaf :: issuer :: tail) :: rest)[0]? = some chain ∧ 2 ≤ chain.length ∧
          chain[0]? = some l ∧ chain[1]? = some i :=
      ⟨by simp, leaf :: issuer :: tail, leaf, issuer, by simp, by simp, by simp, by simp⟩
    have hrej : (VerifyConnection lib ⟨(leaf :: issuer :: tail) :: rest, staple⟩).out
        ≠ .panic := by
      intro hpanic
      have hv := verdict_of_stages lib ⟨(leaf :: issuer :: tail) :: rest, staple⟩
      have ha := hv.1
      have hr := hv.2
      simp only [accepts, rejects, hpanic] at ha hr
      rw [← ha] at hr
      exact absurd hr (by decide)
    refine ⟨fun _ _ _ => hidx, ?_, hrej, ?_⟩
    · cases hp : lib.ParseResponseForCert staple leaf issuer with
      | error err =>
        rw [getOCSPStatus_parse_error lib _ leaf issuer tail rest err rfl hp]
        simp
      | ok resp =>
        rw [getOCSPStatus_parsed lib _ leaf issuer tail rest resp rfl hp]
        simp
    · cases hp : lib.ParseResponseForCert staple leaf issuer with
      | error err =>
        rw [getOCSPStatus_parse_error lib _ leaf issuer tail rest err rfl hp]
        simp
      | ok resp =>
        rw [getOCSPStatus_parsed lib _ leaf issuer tail rest resp rfl hp]
        simp

/-- A run for C10: `getOCSPStatus` returns a response for the chain `[leafA, issuerA]`,
which has the two certificates that are indexed, and the callback does not panic. -/
theorem getOCSPStatus_response_in_bounds_witness :
    (∃ chain leaf issuer,
      (ConnectionState.mk [[leafA, issuerA]] (stapleA 0 0 200)).VerifiedChains[0]? = some chain ∧
      2 ≤ chain.length ∧ chain[0]? = some leaf ∧ chain[1]? = some issuer) ∧
    (VerifyConnection demoLib ⟨[[leafA, issuerA]], stapleA 0 0 200⟩).out ≠ .panic :=
  have h := getOCSPStatus_response_in_bounds demoLib ⟨[[leafA, issuerA]], stapleA 0 0 200⟩
  ⟨(h.1 ⟨0, 1001, 100, 110, 200, 0, 4, [42]⟩ none rfl).2, h.2.2.1⟩

/-- C9: the accept/reject verdict depends only on the chain checks, the parse outcome,
the parsed status and the signature-check outcome, none of which mentions
`ProducedAt`, `ThisUpdate`, `NextUpdate` or a clock; and a `Good` response whose
signature verifies is accepted also when its `NextUpdate` lies before any given
current time `now`. -/
theorem verdict_ignores_times (lib lib' : Library) (s s' : ConnectionState) :
    (stages lib s = stages lib' s' →
      accepts (VerifyConnection lib s) = accepts (VerifyConnection lib' s') ∧
      rejects (VerifyConnection lib s) = rejects (VerifyConnection lib' s')) ∧
    (∀ (chain : List Certificate) (leaf issuer : Certificate) (resp : Response) (now : Time),
      s.VerifiedChains.head? = some chain →
      chain[0]? = some leaf → chain[1]? = some issuer →
      lib.ParseResponseForCert s.OCSPResponse leaf issuer = .ok resp →
      resp.Status = ocsp.Good → lib.CheckSignatureFrom resp issuer = none →
      resp.NextUpdate < now →
      (VerifyConnection lib s).out = .ret none) := by
  constructor
  · intro h
    rw [(verdict_of_stages lib s).1, (verdict_of_stages lib s).2,
      (verdict_of_stages lib' s').1, (verdict_of_stages lib' s').2, h]
    exact ⟨rfl, rfl⟩
  · intro chain leaf issuer resp now hh hl hi hp hst hc _
    rw [← accepts_iff_out, (verdict_of_stages lib s).1, ← acceptCondition_iff_stages]
    obtain ⟨tail, rfl⟩ := chain_of_index hl hi
    exact ⟨leaf :: issuer :: tail, leaf, issuer, resp, hh, by simp, hl, hi, hp, hst, hc⟩

/-- Two runs for C9 that differ only in the time fields of the staple (`NextUpdate`
200 and 5) get the same verdict, and the one with `NextUpdate = 5` is accepted although
5 lies before the time 1000. -/
theorem verdict_ignores_times_witness :
    (accepts (VerifyConnection demoLib ⟨[[leafA, issuerA]], stapleA 0 0 200⟩)
      = accepts (VerifyConnection demoLib ⟨[[leafA, issuerA]], stapleA 0 0 5⟩)) ∧
    (VerifyConnection demoLib ⟨[[leafA, issuerA]], stapleA 0 0 5⟩).out = .ret none :=
  have h := verdict_ignores_times demoLib demoLib ⟨[[leafA, issuerA]], stapleA 0 0 200⟩
    ⟨[[leafA, issuerA]], stapleA 0 0 5⟩
  have h5 := verdict_ignores_times demoLib demoLib ⟨[[leafA, issuerA]], stapleA 0 0 5⟩
    ⟨[[leafA, issuerA]], stapleA 0 0 5⟩
  ⟨(h.1 rfl).1,
    h5.2 [leafA, issuerA] leafA issuerA ⟨0, 1001, 100, 110, 5, 0, 4, [42]⟩ 1000 rfl
      (by decide) (by decide) rfl (by decide) (by decide) (by decide)⟩

/-- A response with status `Revoked` and `RevokedAt = 77`: the callback returns the
error `invalidStaple`, the very same value as for `RevokedAt = 88` and as for a forged
signature, so the reason carries no revocation time; and no `Verified` line is logged,
so the outcome of the signature check is not reported. -/
theorem revoked_reason_counterexample :
    (VerifyConnection demoLib ⟨[[leafA, issuerA]], stapleA 1 77 200⟩).out
      = .ret (some .invalidStaple) ∧
    (VerifyConnection demoLib ⟨[[leafA, issuerA]], stapleA 1 88 200⟩).out
      = (VerifyConnection demoLib ⟨[[leafA, issuerA]], stapleA 1 77 200⟩).out ∧
    (VerifyConnection demoLib ⟨[[leafA, issuerA]], stapleForged 1 77⟩).out
      = (VerifyConnection demoLib ⟨[[leafA, issuerA]], stapleA 1 77 200⟩).out ∧
    (∀ b, LogLine.verified b ∉
      logLines (VerifyConnection demoLib ⟨[[leafA, issuerA]], stapleA 1 77 200⟩).trace) ∧
    (∀ b, LogLine.verified b ∉
      logLines (VerifyConnection demoLib ⟨[[leafA, issuerA]], stapleForged 1 77⟩).trace) := by
  decide

/-- C3 (amended): for a parsed response with status `Revoked` the callback rejects with
the error `invalidStaple`, whatever the signature check gave; the diagnostics are the
header, the status line and `RevokedAt`; the signature was checked by `getOCSPStatus`
(the call is in the trace and its outcome is in the result of `getOCSPStatus`). -/
theorem VerifyConnection_revoked_rejects (lib : Library) (s : ConnectionState)
    (chain : List Certificate) (rest : List (List Certificate))
    (leaf issuer : Certificate) (resp : Response)
    (hs : s.VerifiedChains = chain :: rest)
    (hl : chain[0]? = some leaf) (hi : chain[1]? = some issuer)
    (hp : lib.ParseResponseForCert s.OCSPResponse leaf issuer = .ok resp)
    (hst : resp.Status = ocsp.Revoked) :
    (VerifyConnection lib s).out = .ret (some .invalidStaple) ∧
    logLines (VerifyConnection lib s).trace =
      [.text "--- NATS OCSP Response ---", .text "Status: Revoked",
       .revokedAt resp.RevokedAt] ∧
    Event.checkSignature resp issuer ∈ (VerifyConnection lib s).trace ∧
    (getOCSPStatus lib s).out = .ret (some resp, signatureErr lib resp issuer) := by
  obtain ⟨tail, rfl⟩ := chain_of_index hl hi
  rw [VerifyConnection_revoked lib s leaf issuer tail rest resp hs hp hst,
    getOCSPStatus_parsed lib s leaf issuer tail rest resp hs hp]
  simp [logLines]

/-- Scenario B for C3: a `Revoked` staple with `RevokedAt = 77` signed by `issuerA`. -/
theorem VerifyConnection_revoked_rejects_witness :
    (VerifyConnection demoLib ⟨[[leafA, issuerA]], stapleA 1 77 200⟩).out
      = .ret (some .invalidStaple) ∧
    logLines (VerifyConnection demoLib ⟨[[leafA, issuerA]], stapleA 1 77 200⟩).trace =
      [.text "--- NATS OCSP Response ---", .text "Status: Revoked", .revokedAt 77] :=
  have h := VerifyConnection_revoked_rejects demoLib ⟨[[leafA, issuerA]], stapleA 1 77 200⟩
    [leafA, issuerA] [] leafA issuerA ⟨1, 1001, 100, 110, 200, 77, 4, [42]⟩
    rfl (by decide) (by decide) rfl (by decide)
  ⟨h.1, h.2.1⟩

/-- A `Revoked` response with a forged signature: `getOCSPStatus` returns the response
with the error `badSignature`, but the callback returns `invalidStaple`, which is not a
`badSignature` error. -/
theorem bad_signature_reason_counterexample :
    (getOCSPStatus demoLib ⟨[[leafA, issuerA]], stapleForged 1 77⟩).out
      = .ret (some ⟨1, 1001, 100, 110, 200, 77, 4, [13]⟩,
          some (.badSignature "ocsp: signature verification failed")) ∧
    (VerifyConnection demoLib ⟨[[leafA, issuerA]], stapleForged 1 77⟩).out
      = .ret (some .invalidStaple) ∧
    (∀ detail, (VerifyConnection demoLib ⟨[[leafA, issuerA]], stapleForged 1 77⟩).out
      ≠ .ret (some (.badSignature detail))) := by
  refine ⟨by decide, by decide, ?_⟩
  intro detail h
  have h2 : (VerifyConnection demoLib ⟨[[leafA, issuerA]], stapleForged 1 77⟩).out
      = .ret (some .invalidStaple) := by decide
  rw [h2] at h
  cases h

/-- C4 (amended): when the signature of a parsed response does not verify against the
issuer, `getOCSPStatus` returns the error `badSignature` together with the parsed
response, and the callback rejects; its error is `badSignature` when the status is
`Good`, and then the diagnostics are the full block with `Status: Good` and
`Verified: false`; for status `Revoked` or `Unknown` its error is `invalidStaple`, and
for any other status `invalidStapleStatus`. -/
theorem VerifyConnection_bad_signature (lib : Library) (s : ConnectionState)
    (chain : List Certificate) (rest : List (List Certificate))
    (leaf issuer : Certificate) (resp : Response) (err : String)
    (hs : s.VerifiedChains = chain :: rest)
    (hl : chain[0]? = some leaf) (hi : chain[1]? = some issuer)
    (hp : lib.ParseResponseForCert s.OCSPResponse leaf issuer = .ok resp)
    (hc : lib.CheckSignatureFrom resp issuer = some err) :
    (getOCSPStatus lib s).out = .ret (some resp, some (.badSignature err)) ∧
    rejects (VerifyConnection lib s) = true ∧
    (resp.Status = ocsp.Good →
      (VerifyConnection lib s).out = .ret (some (.badSignature err)) ∧
      logLines (VerifyConnection lib s).trace = goodBlock resp false leaf issuer ∧
      LogLine.text "Status: Good" ∈ logLines (VerifyConnection lib s).trace ∧
      LogLine.verified false ∈ logLines (VerifyConnection lib s).trace) ∧
    (resp.Status = ocsp.Revoked ∨ resp.Status = ocsp.Unknown →
      (VerifyConnection lib s).out = .ret (some .invalidStaple)) ∧
    (resp.Status ≠ ocsp.Good → resp.Status ≠ ocsp.Revoked → resp.Status ≠ ocsp.Unknown →
      (VerifyConnection lib s).out = .ret (some .invalidStapleStatus)) := by
  obtain ⟨tail, rfl⟩ := chain_of_index hl hi
  have hrej : rejects (VerifyConnection lib s) = true := by
    rw [(verdict_of_stages lib s).2]
    obtain ⟨chains, staple⟩ := s
    simp only at hs hp
    subst hs
    simp [stages, hp, hc, stagesAccept]
  refine ⟨?_, hrej, ?_, ?_, ?_⟩
  · rw [getOCSPStatus_bad_signature lib s leaf issuer tail rest resp err hs hp hc]
  · intro hg
    rw [VerifyConnection_good lib s leaf issuer tail rest resp hs hp hg]
    simp [signatureErr, hc, logLines_append, logLines_map_log, logLines, goodBlock]
  · rintro (hr | hu)
    · rw [VerifyConnection_revoked lib s leaf issuer tail rest resp hs hp hr]
    · rw [VerifyConnection_unknown lib s leaf issuer tail rest resp hs hp hu]
  · intro hg hr hu
    rw [VerifyConnection_other lib s leaf issuer tail rest resp hs hp hg hr hu]

/-- Scenario E for C4: a `Good` staple for `leafA` signed with a key that is not the one
of `issuerA`. -/
theorem VerifyConnection_bad_signature_witness :
    (VerifyConnection demoLib ⟨[[leafA, issuerA]], stapleForged 0 0⟩).out
      = .ret (some (.badSignature "ocsp: signature verification failed")) ∧
    LogLine.text "Status: Good" ∈
      logLines (VerifyConnection demoLib ⟨[[leafA, issuerA]], stapleForged 0 0⟩).trace ∧
    LogLine.verified false ∈
      logLines (VerifyConnection demoLib ⟨[[leafA, issuerA]], stapleForged 0 0⟩).trace :=
  have h := (VerifyConnection_bad_signature demoLib ⟨[[leafA, issuerA]], stapleForged 0 0⟩
    [leafA, issuerA] [] leafA issuerA ⟨0, 1001, 100, 110, 200, 0, 4, [13]⟩
    "ocsp: signature verification failed" rfl (by decide) (by decide) rfl (by decide)).2.2.1
    (by decide)
  ⟨h.1, h.2.2.1, h.2.2.2⟩

/-- Parsed responses with status `Unknown` (2) and with the status value 3, both
correctly signed: the diagnostics stop after the status line, respectively after the
header, so they have no `ProducedAt`, `ThisUpdate`, `NextUpdate`, `Verified` or
algorithm line. -/
theorem diagnostics_counterexample :
    logLines (VerifyConnection demoLib ⟨[[leafA, issuerA]], stapleA 2 0 200⟩).trace
      = [.text "--- NATS OCSP Response ---", .text "Status: Unknown"] ∧
    logLines (VerifyConnection demoLib ⟨[[leafA, issuerA]], stapleA 3 0 200⟩).trace
      = [.text "--- NATS OCSP Response ---"] ∧
    LogLine.producedAt 100 ∉
      logLines (VerifyConnection demoLib ⟨[[leafA, issuerA]], stapleA 2 0 200⟩).trace ∧
    (∀ b, LogLine.verified b ∉
      logLines (VerifyConnection demoLib ⟨[[leafA, issuerA]], stapleA 2 0 200⟩).trace) := by
  decide

/-- C6 (amended): for a parsed response with status `Good`, whether the callback then
accepts or rejects, the diagnostics are the full block: status name, `ProducedAt`,
`ThisUpdate`, `NextUpdate`, the signature-verified boolean, and the signature
algorithms of the response, of the leaf and of the issuer. For status `Revoked` they
are the header, the status name and `RevokedAt`; for `Unknown` the header and the
status name; for any other status value the header alone. -/
theorem VerifyConnection_diagnostics (lib : Library) (s : ConnectionState)
    (chain : List Certificate) (rest : List (List Certificate))
    (leaf issuer : Certificate) (resp : Response)
    (hs : s.VerifiedChains = chain :: rest)
    (hl : chain[0]? = some leaf) (hi : chain[1]? = some issuer)
    (hp : lib.ParseResponseForCert s.OCSPResponse leaf issuer = .ok resp) :
    (resp.Status = ocsp.Good →
      logLines (VerifyConnection lib s).trace =
        [.text "--- NATS OCSP Response ---",
         .text "Status: Good",
         .producedAt resp.ProducedAt,
         .thisUpdate resp.ThisUpdate,
         .nextUpdate resp.NextUpdate,
         .text "",
         .text "--- OCSP Signature ---",
         .verified (lib.CheckSignatureFrom resp issuer).isNone,
         .text "",
         .text "--- Signature Algorithms ---",
         .ocspResponseAlg resp.SignatureAlgorithm,
         .leafAlg leaf.SignatureAlgorithm,
         .issuerAlg issuer.SignatureAlgorithm]) ∧
    (resp.Status = ocsp.Revoked →
      logLines (VerifyConnection lib s).trace =
        [.text "--- NATS OCSP Response ---", .text "Status: Revoked",
         .revokedAt resp.RevokedAt]) ∧
    (resp.Status = ocsp.Unknown →
      logLines (VerifyConnection lib s).trace =
        [.text "--- NATS OCSP Response ---", .text "Status: Unknown"]) ∧
    (resp.Status ≠ ocsp.Good → resp.Status ≠ ocsp.Revoked → resp.Status ≠ ocsp.Unknown →
      logLines (VerifyConnection lib s).trace = [.text "--- NATS OCSP Response ---"]) := by
  obtain ⟨tail, rfl⟩ := chain_of_index hl hi
  refine ⟨?_, ?_, ?_, ?_⟩
  · intro hg
    rw [VerifyConnection_good lib s leaf issuer tail rest resp hs hp hg]
    simp [logLines_append, logLines_map_log, logLines, goodBlock]
  · intro hr
    rw [VerifyConnection_revoked lib s leaf issuer tail rest resp hs hp hr]
    simp [logLines]
  · intro hu
    rw [VerifyConnection_unknown lib s leaf issuer tail rest resp hs hp hu]
    simp [logLines]
  · intro hg hr hu
    rw [VerifyConnection_other lib s leaf issuer tail rest resp hs hp hg hr hu]
    simp [logLines]

/-- Scenario A for C6: the diagnostics of a `Good` staple signed by `issuerA`. -/
theorem VerifyConnection_diagnostics_witness :
    logLines (VerifyConnection demoLib ⟨[[leafA, issuerA]], stapleA 0 0 200⟩).trace =
      [.text "--- NATS OCSP Response ---", .text "Status: Good", .producedAt 100,
       .thisUpdate 110, .nextUpdate 200, .text "", .text "--- OCSP Signature ---",
       .verified true, .text "", .text "--- Signature Algorithms ---",
       .ocspResponseAlg 4, .leafAlg 4, .issuerAlg 5] :=
  (VerifyConnection_diagnostics demoLib ⟨[[leafA, issuerA]], stapleA 0 0 200⟩
    [leafA, issuerA] [] leafA issuerA ⟨0, 1001, 100, 110, 200, 0, 4, [42]⟩
    rfl (by decide) (by decide) rfl).1 (by decide)

/-- The callback returns the same error for status `Unknown` (2) as for status
`Revoked` (1): both are `invalidStaple`. -/
theorem unknown_reason_counterexample :
    (VerifyConnection demoLib ⟨[[leafA, issuerA]], stapleA 2 0 200⟩).out
      = .ret (some .invalidStaple) ∧
    (VerifyConnection demoLib ⟨[[leafA, issuerA]], stapleA 1 77 200⟩).out
      = (VerifyConnection demoLib ⟨[[leafA, issuerA]], stapleA 2 0 200⟩).out := by
  decide

/-- C7 (amended): for a parsed response with status `Unknown` the callback rejects with
the error `invalidStaple`; every run on a parsed `Revoked` response returns this same
error, and every run on a parsed response with an unrecognised status value returns the
different error `invalidStapleStatus`. -/
theorem VerifyConnection_unknown_rejects (lib : Library) (s : ConnectionState)
    (chain : List Certificate) (rest : List (List Certificate))
    (leaf issuer : Certificate) (resp : Response)
    (hs : s.VerifiedChains = chain :: rest)
    (hl : chain[0]? = some leaf) (hi : chain[1]? = some issuer)
    (hp : lib.ParseResponseForCert s.OCSPResponse leaf issuer = .ok resp)
    (hst : resp.Status = ocsp.Unknown) :
    (VerifyConnection lib s).out = .ret (some .invalidStaple) ∧
    (∀ (lib' : Library) (s' : ConnectionState) (chain' : List Certificate)
      (rest' : List (List Certificate)) (leaf' issuer' : Certificate) (resp' : Response),
      s'.VerifiedChains = chain' :: rest' →
      chain'[0]? = some leaf' → chain'[1]? = some issuer' →
      lib'.ParseResponseForCert s'.OCSPResponse leaf' issuer' = .ok resp' →
      (resp'.Status = ocsp.Revoked →
        (VerifyConnection lib' s').out = (VerifyConnection lib s).out) ∧
      (resp'.Status ≠ ocsp.Good → resp'.Status ≠ ocsp.Revoked →
        resp'.Status ≠ ocsp.Unknown →
        (VerifyConnection lib' s').out = .ret (some .invalidStapleStatus) ∧
        (VerifyConnection lib' s').out ≠ (VerifyConnection lib s).out)) := by
  obtain ⟨tail, rfl⟩ := chain_of_index hl hi
  have hout : (VerifyConnection lib s).out = .ret (some .invalidStaple) := by
    rw [VerifyConnection_unknown lib s leaf issuer tail rest resp hs hp hst]
  refine ⟨hout, ?_⟩
  intro lib' s' chain' rest' leaf' issuer' resp' hs' hl' hi' hp'
  obtain ⟨tail', rfl⟩ := chain_of_index hl' hi'
  rw [hout]
  constructor
  · intro hr
    rw [VerifyConnection_revoked lib' s' leaf' issuer' tail' rest' resp' hs' hp' hr]
  · intro hg hr hu
    rw [VerifyConnection_other lib' s' leaf' issuer' tail' rest' resp' hs' hp' hg hr hu]
    refine ⟨rfl, ?_⟩
    intro h
    cases h

/-- A correctly signed staple with status `Unknown` for C7. -/
theorem VerifyConnection_unknown_rejects_witness :
    (VerifyConnection demoLib ⟨[[leafA, issuerA]], stapleA 2 0 200⟩).out
      = .ret (some .invalidStaple) :=
  (VerifyConnection_unknown_rejects demoLib ⟨[[leafA, issuerA]], stapleA 2 0 200⟩
    [leafA, issuerA] [] leafA issuerA ⟨2, 1001, 100, 110, 200, 0, 4, [42]⟩
    rfl (by decide) (by decide) rfl (by decide)).1

/-- A state whose only verified chain has zero certificates: `getOCSPStatus` returns
`incompleteChain 0 2`, not `missingChains`. -/
theorem empty_chain_counterexample :
    (getOCSPStatus demoLib ⟨[[]], stapleA 0 0 200⟩).out
      = .ret (none, some (.incompleteChain 0 2)) ∧
    (getOCSPStatus demoLib ⟨[[]], stapleA 0 0 200⟩).out
      ≠ .ret (none, some .missingChains) := by
  decide

/-- C8 (amended): with no verified chains at all `getOCSPStatus` fails with
`missingChains` and a nil response without invoking the parser; a first verified chain
with zero certificates gives `incompleteChain 0 2`, also without invoking the parser;
and whenever the chain has at least two certificates the parser is called with
`leaf = chain[0]`, `issuer = chain[1]`, and any signature check is made against
`chain[1]`. -/
theorem getOCSPStatus_chain_extraction (lib : Library) (s : ConnectionState) :
    (s.VerifiedChains = [] →
      (getOCSPStatus lib s).out = .ret (none, some .missingChains) ∧
      parserInvoked (getOCSPStatus lib s).trace = false) ∧
    (∀ rest, s.VerifiedChains = [] :: rest →
      (getOCSPStatus lib s).out = .ret (none, some (.incompleteChain 0 2)) ∧
      parserInvoked (getOCSPStatus lib s).trace = false) ∧
    (∀ chain rest leaf issuer, s.VerifiedChains = chain :: rest → 2 ≤ chain.length →
      chain[0]? = some leaf → chain[1]? = some issuer →
      (getOCSPStatus lib s).trace.head? = some (.parse s.OCSPResponse leaf issuer) ∧
      ∀ r i, Event.checkSignature r i ∈ (getOCSPStatus lib s).trace → i = issuer) := by
  refine ⟨?_, ?_, ?_⟩
  · intro hs
    rw [getOCSPStatus_no_chains lib s hs]
    exact ⟨rfl, rfl⟩
  · intro rest hs
    rw [getOCSPStatus_short_chain lib s [] rest hs (by simp)]
    exact ⟨rfl, rfl⟩
  · intro chain rest leaf issuer hs _ hl hi
    obtain ⟨tail, rfl⟩ := chain_of_index hl hi
    cases hp : lib.ParseResponseForCert s.OCSPResponse leaf issuer with
    | error err =>
      rw [getOCSPStatus_parse_error lib s leaf issuer tail rest err hs hp]
      simp
    | ok resp =>
      rw [getOCSPStatus_parsed lib s leaf issuer tail rest resp hs hp]
      simp

/-- Runs for C8: no verified chains gives `missingChains`; with the chain
`[leafA, issuerA]` the parser is called with `leafA` and `issuerA`. -/
theorem getOCSPStatus_chain_extraction_witness :
    (getOCSPStatus demoLib ⟨[], stapleA 0 0 200⟩).out = .ret (none, some .missingChains) ∧
    (getOCSPStatus demoLib ⟨[[leafA, issuerA]], stapleA 0 0 200⟩).trace.head?
      = some (.parse (stapleA 0 0 200) leafA issuerA) :=
  ⟨((getOCSPStatus_chain_extraction demoLib ⟨[], stapleA 0 0 200⟩).1 rfl).1,
   ((getOCSPStatus_chain_extraction demoLib ⟨[[leafA, issuerA]], stapleA 0 0 200⟩).2.2
      [leafA, issuerA] [] leafA issuerA rfl (by decide) (by decide) (by decide)).1⟩

end OcspCheck
